import Mathlib

/-!
Shallow embedding of `bot.py` (a Telegram storefront bot) and proofs of the
specification's claims about it.

Strings are Lean `String`s (lists of Unicode scalar values); percent-encoding
works over UTF-8 bytes modelled as `Nat` (< 256).  Prices are embedded as
integer minor units (paise): the source stores whole-rupee `float`s
(30.00, 50.00, 100.00) for which every arithmetic step performed by the
source is exact, so the `Nat` model coincides with the source on the whole
catalog.
-/

namespace Bot

/-! ## UTF-8 encoding / decoding (byte-level model used by percent-coding) -/

/-- UTF-8 byte sequence of one Unicode scalar value (as `Nat`s < 256). -/
def utf8Bytes (c : Char) : List Nat :=
  let n := c.toNat
  if n < 128 then [n]
  else if n < 2048 then [192 + n / 64, 128 + n % 64]
  else if n < 65536 then [224 + n / 4096, 128 + n / 64 % 64, 128 + n % 64]
  else [240 + n / 262144, 128 + n / 4096 % 64, 128 + n / 64 % 64, 128 + n % 64]

/-- Is `b` a UTF-8 continuation byte (10xxxxxx)? -/
def isCont (b : Nat) : Bool := 128 ≤ b && b < 192

/-- U+FFFD, the replacement character emitted for malformed input
(CPython decodes percent-escapes with errors=replace). -/
def replacementChar : Char := Char.ofNat 65533

/-- Decode a UTF-8 byte list back to characters, substituting U+FFFD for
malformed sequences.  On output of `utf8Bytes` this inverts it.  `fuel`
bounds the recursion; callers pass the list length, which suffices because
every step consumes at least one byte. -/
def utf8DecodeAux : Nat → List Nat → List Char
  | 0, _ => []
  | _ + 1, [] => []
  | fuel + 1, b1 :: rest =>
    if b1 < 128 then Char.ofNat b1 :: utf8DecodeAux fuel rest
    else if b1 < 192 then replacementChar :: utf8DecodeAux fuel rest
    else if b1 < 224 then
      match rest with
      | b2 :: rest2 =>
        if isCont b2 then Char.ofNat ((b1 - 192) * 64 + (b2 - 128)) :: utf8DecodeAux fuel rest2
        else replacementChar :: utf8DecodeAux fuel rest
      | [] => [replacementChar]
    else if b1 < 240 then
      match rest with
      | b2 :: b3 :: rest3 =>
        if isCont b2 && isCont b3 then
          Char.ofNat ((b1 - 224) * 4096 + (b2 - 128) * 64 + (b3 - 128)) :: utf8DecodeAux fuel rest3
        else replacementChar :: utf8DecodeAux fuel rest
      | _ => replacementChar :: utf8DecodeAux fuel rest
    else
      match rest with
      | b2 :: b3 :: b4 :: rest4 =>
        if isCont b2 && isCont b3 && isCont b4 then
          Char.ofNat ((b1 - 240) * 262144 + (b2 - 128) * 4096 + (b3 - 128) * 64 + (b4 - 128))
            :: utf8DecodeAux fuel rest4
        else replacementChar :: utf8DecodeAux fuel rest
      | _ => replacementChar :: utf8DecodeAux fuel rest

/-- UTF-8 decoding of a full byte list. -/
def utf8DecodeList (l : List Nat) : List Char :=
  utf8DecodeAux l.length l

/-! ## `urllib.parse.quote` / `unquote` -/

/-- Uppercase hexadecimal digit for `n < 16`. -/
def hexDigit (n : Nat) : Char :=
  if n < 10 then Char.ofNat (48 + n) else Char.ofNat (55 + n)

/-- Characters `urllib.parse.quote` leaves unencoded with its default
`safe` argument: ASCII letters, digits, `_.-~` and `/`. -/
def isQuoteSafe (c : Char) : Bool :=
  let n := c.toNat
  (65 ≤ n && n ≤ 90) || (97 ≤ n && n ≤ 122) || (48 ≤ n && n ≤ 57) ||
  c = '_' || c = '.' || c = '-' || c = '~' || c = '/'

/-- Percent-encoding of one character: safe characters pass through, every
other character is replaced by `%XX` per UTF-8 byte (uppercase hex). -/
def quoteChar (c : Char) : List Char :=
  if isQuoteSafe c then [c]
  else (utf8Bytes c).flatMap fun b => ['%', hexDigit (b / 16), hexDigit (b % 16)]

/-- `urllib.parse.quote(s)` with the default `safe='/'`. -/
def quote (s : String) : String :=
  String.mk (s.data.flatMap quoteChar)

/-- Value of a hexadecimal digit character (either case), if any. -/
def hexVal? (c : Char) : Option Nat :=
  let n := c.toNat
  if 48 ≤ n && n ≤ 57 then some (n - 48)
  else if 65 ≤ n && n ≤ 70 then some (n - 55)
  else if 97 ≤ n && n ≤ 102 then some (n - 87)
  else none

/-- Core of `urllib.parse.unquote`: scan the text, turning each maximal run
of `%XX` escapes into bytes and UTF-8-decoding the run; every other
character (a `%` not followed by two hex digits included) passes through
literally.  `acc` holds the bytes of the current escape run. -/
def unquoteAux : Nat → List Char → List Nat → List Char
  | 0, _, acc => utf8DecodeList acc
  | _ + 1, [], acc => utf8DecodeList acc
  | fuel + 1, c :: rest, acc =>
    if c = '%' then
      match rest with
      | h1 :: h2 :: rest2 =>
        match hexVal? h1, hexVal? h2 with
        | some a, some b => unquoteAux fuel rest2 (acc ++ [16 * a + b])
        | _, _ => utf8DecodeList acc ++ c :: unquoteAux fuel rest []
      | _ => utf8DecodeList acc ++ c :: unquoteAux fuel rest []
    else utf8DecodeList acc ++ c :: unquoteAux fuel rest []

/-- `urllib.parse.unquote` (percent-decoding, UTF-8, errors=replace). -/
def unquote (s : String) : String :=
  String.mk (unquoteAux s.data.length s.data [])

/-! ## Catalog (`COURSE_DATA`) -/

/-- One catalog entry.  `priceMinor` is the price in integer minor units
(paise); the source stores the equivalent whole-rupee binary float. -/
structure Course where
  name : String
  priceMinor : Nat
  descr : String
  features : List String
deriving DecidableEq

/-- The `"course_a"` entry of `COURSE_DATA` (₹30.00). -/
def course_a : Course :=
  { name := "Ordinary Group", priceMinor := 3000
    descr := "Get Leaked content, daily updates ✅"
    features := ["Basic content access", "Daily updates"] }

/-- The `"course_b"` entry of `COURSE_DATA` (₹50.00). -/
def course_b : Course :=
  { name := "Standard Group", priceMinor := 5000
    descr := "Get premium content, daily updates ✅"
    features := ["Premium content access", "Daily updates", "Priority support"] }

/-- The `"course_c"` entry of `COURSE_DATA` (₹100.00). -/
def course_c : Course :=
  { name := "Premium Group 👑", priceMinor := 10000
    descr := "Get unlimited premium content, daily updates ✅"
    features := ["Unlimited content access", "Daily updates", "24/7 support", "Exclusive materials"] }

/-- The `COURSE_DATA` table, in the source's (Python dict insertion) order. -/
def COURSE_DATA : List (String × Course) :=
  [("course_a", course_a), ("course_b", course_b), ("course_c", course_c)]

/-- `COURSE_DATA.get(course_id)`. -/
def courseGet (course_id : String) : Option Course :=
  COURSE_DATA.lookup course_id

/-! ## Price rendering -/

/-- Decimal string of `n` left-padded to two digits (Python `{x:02d}` for
the values that occur, all < 100). -/
def pad2 (n : Nat) : String :=
  (if n < 10 then "0" else "") ++ toString n

/-- The price rendering `f"{int(price)}.{int(round((price - int(price)) * 100)):02d}"`
from the source, on the minor-unit embedding.  For the catalog's
whole-rupee float prices the source's float subtraction and rounding are
exact, and equal `priceMinor / 100` and `priceMinor % 100`. -/
def format_price (priceMinor : Nat) : String :=
  toString (priceMinor / 100) ++ "." ++ pad2 (priceMinor % 100)

/-- CPython `str()` of the stored float price, as interpolated by
`f"₹{price}"` in the deep link: for a price exact in two decimals the
shortest repr keeps one `.0` digit when the fraction is zero, drops a
trailing zero otherwise.  Only catalog values (whole rupees) are used. -/
def pyFloatStr (priceMinor : Nat) : String :=
  let maj := priceMinor / 100
  let frac := priceMinor % 100
  if frac = 0 then toString maj ++ ".0"
  else if frac % 10 = 0 then toString maj ++ "." ++ toString (frac / 10)
  else toString maj ++ "." ++ pad2 frac

/-! ## Python `str.replace` -/

/-- Fuel-bounded scan for `str.replace`: replace each leftmost,
non-overlapping occurrence of `pat`. -/
def replaceAllAux (pat rep : List Char) : Nat → List Char → List Char
  | 0, l => l
  | _ + 1, [] => []
  | fuel + 1, c :: rest =>
    if pat.isPrefixOf (c :: rest) then rep ++ replaceAllAux pat rep fuel ((c :: rest).drop pat.length)
    else c :: replaceAllAux pat rep fuel rest

/-- Python `s.replace(pat, rep)` (all occurrences, left to right); `pat` is
nonempty at every use site. -/
def replaceAll (s pat rep : String) : String :=
  String.mk (replaceAllAux pat.data rep.data s.data.length s.data)

/-! ## Keyboards -/

/-- An inline keyboard button: either a callback button (label plus opaque
callback payload) or an external-URL button. -/
inductive Button where
  | callback (label : String) (payload : String)
  | url (label : String) (href : String)
deriving DecidableEq

/-- An inline keyboard: an ordered list of button rows. -/
abbrev Keyboard := List (List Button)

/-- All callback payloads of a keyboard, in layout order. -/
def callbackDatas (kb : Keyboard) : List String :=
  kb.flatMap fun row => row.filterMap fun b =>
    match b with
    | .callback _ d => some d
    | .url _ _ => none

/-- All callback-button labels of a keyboard, in layout order. -/
def callbackLabels (kb : Keyboard) : List String :=
  kb.flatMap fun row => row.filterMap fun b =>
    match b with
    | .callback l _ => some l
    | .url _ _ => none

/-- All `(label, href)` pairs of URL buttons of a keyboard, in layout order. -/
def urlButtons (kb : Keyboard) : List (String × String) :=
  kb.flatMap fun row => row.filterMap fun b =>
    match b with
    | .callback _ _ => none
    | .url l u => some (l, u)

/-- `create_course_keyboard`: one row per catalog item, in catalog order,
with label `f"{name} (₹{int(price)}.{frac:02d})"` and callback payload
`f"select_course_{course_id}"`, then the fixed demo-URL row. -/
def create_course_keyboard : Keyboard :=
  (COURSE_DATA.map fun p =>
    [Button.callback (p.2.name ++ " (₹" ++ format_price p.2.priceMinor ++ ")")
      ("select_course_" ++ p.1)])
  ++ [[Button.url "📸 Show Demo" "https://t.me/+ukJYiqlkRLYzOTFl"]]

/-! ## Link Builder (`create_course_detail_keyboard`) -/

/-- The pre-filled `message_text` of the deep link: static transport syntax
(`%0A` newlines and the literal template) around the percent-encoded name,
the raw `f"{price}"` float string, and the `"|"`-join of the
percent-encoded features. -/
def message_text (course : Course) : String :=
  "Hello Admin,%0A%0A" ++
  "I\x27m interested in the following Group:%0A" ++
  "📘 Group: " ++ quote course.name ++ "%0A" ++
  "💰 Price: ₹" ++ pyFloatStr course.priceMinor ++ "%0A" ++
  "📋 Features: " ++ String.intercalate "|" (course.features.map quote) ++ "%0A%0A" ++
  "Please provide payment details."

/-- `deep_link = f"https://t.me/{ADMIN_USERNAME}?text=" + message_text`. -/
def deep_link (admin_username : String) (course : Course) : String :=
  "https://t.me/" ++ admin_username ++ "?text=" ++ message_text course

/-- `create_course_detail_keyboard(course_id)`: `None` when the id is not
in the catalog, else the contact-URL row plus the back row. -/
def create_course_detail_keyboard (admin_username : String) (course_id : String) :
    Option Keyboard :=
  match courseGet course_id with
  | none => none
  | some course =>
    some [[Button.url "Contact Admin" (deep_link admin_username course)],
          [Button.callback "⬅️ Back to Groups" "back_to_groups"]]

/-! ## Delivery Service (`send_safe_message`) -/

/-- The two rich-rendering modes `send_safe_message` distinguishes. -/
inductive ParseMode where
  | markdownV2
  | html
deriving DecidableEq

/-- Characters `telegram.helpers.escape_markdown(version=2)` escapes. -/
def mdv2Special : List Char :=
  "_*[]()~>#+-=|.!".data ++ [Char.ofNat 96, Char.ofNat 123, Char.ofNat 125]

/-- `escape_markdown(text, version=2)`: prefix each special character with
a backslash. -/
def escape_markdown (text : String) : String :=
  String.mk (text.data.flatMap fun c => if c ∈ mdv2Special then ['\\', c] else [c])

/-- The `escaped_text` computation at the top of `send_safe_message`:
MarkdownV2 escapes, HTML and plain pass the text through. -/
def escape_step (parse_mode : Option ParseMode) (text : String) : String :=
  match parse_mode with
  | some .markdownV2 => escape_markdown text
  | _ => text

/-- One transport send/edit attempt as issued by `send_safe_message`:
`isEdit` is true for `edit_message_text` on a callback update, false for
`reply_text` on a command update. -/
structure SendCall where
  isEdit : Bool
  text : String
  parse_mode : Option ParseMode
  reply_markup : Option Keyboard
deriving DecidableEq

/-- How a `send_safe_message` invocation ended. -/
inductive Outcome where
  | sentPrimary
  | sentFallback
  | acked
  | failedSilently
deriving DecidableEq

/-- Observable effect of one `send_safe_message` invocation: the final
outcome, the transport attempts in order, and any `callback_query.answer`
texts issued by the last-resort branch. -/
structure SendResult where
  outcome : Outcome
  calls : List SendCall
  acks : List String
deriving DecidableEq

/-- `send_safe_message`, with the transport modelled by the oracle `ok`
(whether a given send/edit attempt succeeds; a `false` result stands for a
raised `TelegramError`).  First attempt: escaped text with the requested
parse mode; on failure, one retry with the original `text` and no parse
mode; on a second failure, a callback update gets the
"an error occurred" acknowledgment and a command update gets nothing.
Every `TelegramError` is caught, so the function is total (the handler
never raises). -/
def send_safe_message (ok : SendCall → Bool) (isCallback : Bool)
    (text : String) (reply_markup : Option Keyboard) (parse_mode : Option ParseMode) :
    SendResult :=
  let escaped_text := escape_step parse_mode text
  let first : SendCall := ⟨isCallback, escaped_text, parse_mode, reply_markup⟩
  if ok first then ⟨.sentPrimary, [first], []⟩
  else
    let fallback : SendCall := ⟨isCallback, text, none, reply_markup⟩
    if ok fallback then ⟨.sentFallback, [first, fallback], []⟩
    else if isCallback then
      ⟨.acked, [first, fallback], ["Sorry, an error occurred. Please try again."]⟩
    else ⟨.failedSilently, [first, fallback], []⟩

/-! ## Conversation Controller (handlers) -/

/-- The arguments a handler passes to `send_safe_message` (`parse_mode` is
a keyword argument defaulting to `None`). -/
structure SafeSendArgs where
  text : String
  reply_markup : Option Keyboard
  parse_mode : Option ParseMode
deriving DecidableEq

/-- The `'selected_course'` record `select_course` stores in
`context.user_data`. -/
structure SelectedCourse where
  id : String
  name : String
  priceMinor : Nat
  features : List String
deriving DecidableEq

/-- `start_command`: the single `send_safe_message` invocation it makes
(welcome text, catalog keyboard, no parse mode). -/
def start_command : SafeSendArgs :=
  { text := "🌟 Welcome to our Premium Bot 📚\n\nSelect a Group below to see its details:"
    reply_markup := some create_course_keyboard
    parse_mode := none }

/-- `show_courses_menu` (the `back_to_groups` callback handler): its single
`send_safe_message` invocation. -/
def show_courses_menu : SafeSendArgs :=
  { text := "🌟 Welcome to our Premium Bot 📚\n\nSelect a Group below to see its details:"
    reply_markup := some create_course_keyboard
    parse_mode := none }

/-- `select_course`: strips `"select_course_"` from the callback data,
looks the id up, and either replies not-found (leaving
`context.user_data['selected_course']` untouched) or stores the selection
and renders the detail view.  Returns the new session value and the
`send_safe_message` arguments. -/
def select_course (admin_username : String) (user_data : Option SelectedCourse)
    (callback_data : String) : Option SelectedCourse × SafeSendArgs :=
  let course_id := replaceAll callback_data "select_course_" ""
  match courseGet course_id with
  | none => (user_data, ⟨"Error: Group information not found.", none, none⟩)
  | some course =>
    let newSelection :=
      some (⟨course_id, course.name, course.priceMinor, course.features⟩ : SelectedCourse)
    let features := String.intercalate "\n• " course.features
    let price_text := "₹" ++ format_price course.priceMinor
    let description_text :=
      "📘 " ++ course.name ++ " 👑\n\n" ++
      "💰 Price: " ++ price_text ++ "\n\n" ++
      "📋 Features:\n• " ++ features ++ "\n\n" ++
      "📝 Description:\n" ++ course.descr
    (newSelection,
     ⟨description_text, create_course_detail_keyboard admin_username course_id, none⟩)

/-- `contact_admin`: strips `"contact_admin_"`, looks the id up, and either
replies not-found or relays an inquiry to the operator (returned as the
optional second component) and acknowledges the requester.  First
component: the `send_safe_message` arguments. -/
def contact_admin (user_info : String) (callback_data : String) :
    SafeSendArgs × Option String :=
  let course_id := replaceAll callback_data "contact_admin_" ""
  match courseGet course_id with
  | none => (⟨"Error: Group information not found.", none, none⟩, none)
  | some course =>
    let msg :=
      "New course inquiry from " ++ user_info ++ ":\n\n" ++
      "📘 Group: " ++ course.name ++ "\n" ++
      "💰 Price: ₹" ++ pyFloatStr course.priceMinor ++ "\n" ++
      "📋 Features: " ++ String.intercalate ", " course.features
    (⟨"Your request has been sent to the admin. They will contact you shortly with payment details.",
      none, none⟩, some msg)

/-- `error_handler`: its single `send_safe_message` invocation. -/
def error_handler : SafeSendArgs :=
  { text := "An error occurred. Please try again later."
    reply_markup := none
    parse_mode := none }

/-! ## Startup configuration check -/

/-- The module-level configuration check (`bot.py` lines 30–35), run before
`main()` and hence before the event loop: only `TELEGRAM_BOT_TOKEN` is
validated (`if not TELEGRAM_BOT_TOKEN`, so `None` and the empty string
abort); `ADMIN_USERNAME` is read but never checked. -/
def startup_check (telegram_bot_token admin_username : Option String) :
    Except String Unit :=
  if telegram_bot_token = none ∨ telegram_bot_token = some "" then
    Except.error "TELEGRAM_BOT_TOKEN is required"
  else
    let _ := admin_username
    Except.ok ()

/-! ## Helpers used by statements -/

/-- Does `s` contain `pat` as a contiguous substring? -/
def containsSubAux (pat : List Char) : List Char → Bool
  | [] => pat.isEmpty
  | c :: rest => pat.isPrefixOf (c :: rest) || containsSubAux pat rest

/-- Substring test on strings. -/
def containsSub (s pat : String) : Bool :=
  containsSubAux pat.data s.data

/-- Split a string at a separator character (the reconstruction step a
deep-link consumer applies to the features field). -/
def splitOnCharAux (sep : Char) : List Char → List Char → List String
  | [], cur => [String.mk cur.reverse]
  | c :: rest, cur =>
    if c = sep then String.mk cur.reverse :: splitOnCharAux sep rest []
    else splitOnCharAux sep rest (c :: cur)

/-- Split a string on every occurrence of `sep`. -/
def splitOnChar (sep : Char) (s : String) : List String :=
  splitOnCharAux sep s.data []

/-- Modelled from the spec (§4.3 Link Builder): a variant message builder
that percent-encodes every dynamic field independently — the display name,
each feature string, and the FORMATTED price (integer major part and
exactly two minor digits) — before concatenation with the transport
syntax. -/
def spec_message_text (course : Course) : String :=
  "Hello Admin,%0A%0A" ++
  "I\x27m interested in the following Group:%0A" ++
  "📘 Group: " ++ quote course.name ++ "%0A" ++
  "💰 Price: ₹" ++ quote (format_price course.priceMinor) ++ "%0A" ++
  "📋 Features: " ++ String.intercalate "|" (course.features.map quote) ++ "%0A%0A" ++
  "Please provide payment details."

/-- The percent-decoded form the deep link's message is expected to take:
the same template with every field in the clear, the features joined by
`"|"`.  Built from the original (unencoded) course record, so equality
with the decoded link is the round-trip property. -/
def plain_message (course : Course) : String :=
  "Hello Admin,\n\n" ++
  "I\x27m interested in the following Group:\n" ++
  "📘 Group: " ++ course.name ++ "\n" ++
  "💰 Price: ₹" ++ pyFloatStr course.priceMinor ++ "\n" ++
  "📋 Features: " ++ String.intercalate "|" course.features ++ "\n\n" ++
  "Please provide payment details."

/-! ## Lemmas -/

theorem string_data_append (s t : String) : (s ++ t).data = s.data ++ t.data := rfl

theorem utf8DecodeList_nil : utf8DecodeList [] = [] := rfl

/-- Percent-decoding distributes over a prefix free of `%`: every such
character passes through `unquoteAux` literally. -/
theorem unquoteAux_append_of_not_mem (l₁ l₂ : List Char) (h : '%' ∉ l₁) :
    unquoteAux (l₁ ++ l₂).length (l₁ ++ l₂) [] = l₁ ++ unquoteAux l₂.length l₂ [] := by
  induction l₁ with
  | nil => rfl
  | cons c t ih =>
    have hc : ¬ c = '%' := fun e => h (e ▸ List.mem_cons_self c t)
    have ht : '%' ∉ t := fun m => h (List.mem_cons_of_mem c m)
    simp only [List.cons_append, List.length_cons, unquoteAux, if_neg hc,
      utf8DecodeList_nil, List.nil_append, List.append_eq, ih ht]

/-- Decoding a deep link whose admin handle contains no `%` reduces to
decoding its `message_text` payload. -/
theorem unquote_deep_link (admin m target : String) (h : '%' ∉ admin.data)
    (hm : unquoteAux m.data.length m.data [] = target.data) :
    unquote ("https://t.me/" ++ admin ++ "?text=" ++ m) =
      "https://t.me/" ++ admin ++ "?text=" ++ target := by
  have h1 : '%' ∉ "https://t.me/".data := by decide
  have h2 : '%' ∉ "?text=".data := by decide
  show String.mk _ = _
  rw [string_data_append, string_data_append, string_data_append,
    List.append_assoc, List.append_assoc]
  rw [unquoteAux_append_of_not_mem _ _ h1, unquoteAux_append_of_not_mem _ _ h,
    unquoteAux_append_of_not_mem _ _ h2, hm]
  apply congrArg String.mk
  simp [List.append_assoc]

/-! ## Claims -/

set_option maxRecDepth 100000

/-- C1: For every catalog item, percent-decoding the deep link produced by
the link builder (`create_course_detail_keyboard`) reconstructs the
original item name, price, and feature list exactly — the decoded link is
the plain template built from the unencoded catalog fields (names and
features containing spaces and non-ASCII included), splitting the decoded
features field on `"|"` recovers the exact feature list, and the embedded
price string determines the price uniquely across the catalog. -/
theorem c1_deep_link_roundtrip (admin_username : String)
    (h : '%' ∉ admin_username.data) :
    (∀ p ∈ COURSE_DATA,
      unquote (deep_link admin_username p.2) =
        "https://t.me/" ++ admin_username ++ "?text=" ++ plain_message p.2 ∧
      splitOnChar '|' (String.intercalate "|" p.2.features) = p.2.features) ∧
    (COURSE_DATA.map fun p => pyFloatStr p.2.priceMinor).Nodup := by
  refine ⟨?_, by decide⟩
  intro p hp
  simp only [COURSE_DATA, List.mem_cons, List.not_mem_nil, or_false] at hp
  rcases hp with rfl | rfl | rfl <;>
    exact ⟨unquote_deep_link admin_username _ _ h (by decide), by decide⟩

/-- Witness for C1 at `admin_username := "adminuser"` and item
`course_b`. -/
theorem c1_deep_link_roundtrip_witness :
    unquote (deep_link "adminuser" course_b) =
      "https://t.me/" ++ "adminuser" ++ "?text=" ++ plain_message course_b ∧
    splitOnChar '|' (String.intercalate "|" course_b.features) = course_b.features :=
  (c1_deep_link_roundtrip "adminuser" (by decide)).1 ("course_b", course_b) (by decide)

/-- C2 counterexample: the claim says the link builder percent-encodes
every dynamic field, the formatted price included, independently before
concatenation; but on `course_a` the built `message_text` differs from the
spec-faithful builder `spec_message_text` (which encodes the formatted
two-digit price): the code embeds the raw float string `30.0` in the price
slot, not an encoding of the formatted price `30.00`. -/
theorem c2_encode_fields_counterexample :
    message_text course_a ≠ spec_message_text course_a ∧
    containsSub (message_text course_a) "₹30.0%0A" = true ∧
    containsSub (message_text course_a) (quote (format_price course_a.priceMinor)) = false := by
  refine ⟨by decide, by decide, by decide⟩

/-- C2 (amended): the link builder percent-encodes the display name and
each feature string independently before concatenation, but the price slot
holds the raw, unencoded string of the float price (for example `30.0`)
rather than a percent-encoding of the formatted two-digit price; since
neither the encoded fields nor that raw price string contain the `%0A`
separator sequence or the `|` feature delimiter, separator characters
still appear only as literal transport syntax and never arise from field
content. -/
theorem c2_encode_fields_amended :
    ∀ p ∈ COURSE_DATA,
      containsSub (message_text p.2) ("Group: " ++ quote p.2.name ++ "%0A") = true ∧
      containsSub (message_text p.2)
        ("Features: " ++ String.intercalate "|" (p.2.features.map quote) ++ "%0A") = true ∧
      containsSub (message_text p.2) ("Price: ₹" ++ pyFloatStr p.2.priceMinor ++ "%0A") = true ∧
      containsSub (message_text p.2) (quote (format_price p.2.priceMinor)) = false ∧
      (containsSub (quote p.2.name) "%0A" || (quote p.2.name).data.contains '|') = false ∧
      (p.2.features.all fun f =>
        !(containsSub (quote f) "%0A") && !((quote f).data.contains '|')) = true ∧
      (containsSub (pyFloatStr p.2.priceMinor) "%0A" ||
        (pyFloatStr p.2.priceMinor).data.contains '|') = false := by
  intro p hp
  simp only [COURSE_DATA, List.mem_cons, List.not_mem_nil, or_false] at hp
  rcases hp with rfl | rfl | rfl <;> decide

/-- Witness for the amended C2 at item `course_a`. -/
theorem c2_encode_fields_amended_witness :
    containsSub (message_text course_a) ("Group: " ++ quote course_a.name ++ "%0A") = true ∧
    containsSub (message_text course_a)
      ("Features: " ++ String.intercalate "|" (course_a.features.map quote) ++ "%0A") = true ∧
    containsSub (message_text course_a) ("Price: ₹" ++ pyFloatStr course_a.priceMinor ++ "%0A") = true ∧
    containsSub (message_text course_a) (quote (format_price course_a.priceMinor)) = false ∧
    (containsSub (quote course_a.name) "%0A" || (quote course_a.name).data.contains '|') = false ∧
    (course_a.features.all fun f =>
      !(containsSub (quote f) "%0A") && !((quote f).data.contains '|')) = true ∧
    (containsSub (pyFloatStr course_a.priceMinor) "%0A" ||
      (pyFloatStr course_a.priceMinor).data.contains '|') = false :=
  c2_encode_fields_amended ("course_a", course_a) (by decide)

/-- The text `select_course` renders does not depend on the admin handle
or on the prior session (only its keyboard embeds the admin handle). -/
theorem select_course_text_const (a₁ a₂ : String)
    (ud₁ ud₂ : Option SelectedCourse) (d : String) :
    (select_course a₁ ud₁ d).2.text = (select_course a₂ ud₂ d).2.text := by
  cases h : courseGet (replaceAll d "select_course_" "") <;> simp [select_course, h]

/-- C3: for every catalog item the rendered price is the integer major
part followed by a dot and exactly two minor digits (`30.00`, `50.00`,
`100.00`), with no float artifacts, both in the catalog keyboard labels
and in the item-detail view text. -/
theorem c3_price_two_digits (admin_username : String) :
    (COURSE_DATA.map fun p => format_price p.2.priceMinor) = ["30.00", "50.00", "100.00"] ∧
    (COURSE_DATA.all fun p =>
      (format_price p.2.priceMinor ==
        toString (p.2.priceMinor / 100) ++ "." ++ pad2 (p.2.priceMinor % 100)) &&
      (pad2 (p.2.priceMinor % 100)).data.length == 2 &&
      (pad2 (p.2.priceMinor % 100)).data.all (·.isDigit)) = true ∧
    callbackLabels create_course_keyboard =
      ["Ordinary Group (₹30.00)", "Standard Group (₹50.00)", "Premium Group 👑 (₹100.00)"] ∧
    containsSub (select_course admin_username none "select_course_course_a").2.text
      "💰 Price: ₹30.00\n" = true ∧
    containsSub (select_course admin_username none "select_course_course_b").2.text
      "💰 Price: ₹50.00\n" = true ∧
    containsSub (select_course admin_username none "select_course_course_c").2.text
      "💰 Price: ₹100.00\n" = true := by
  refine ⟨by decide, by decide, by decide, ?_, ?_, ?_⟩ <;>
    rw [select_course_text_const admin_username "" none none] <;> decide

/-- C4: if the first delivery attempt of `send_safe_message` fails, it
retries exactly once — the attempt trace is exactly the failed first call
followed by one fallback call carrying the original unescaped, unmodified
text, no parse mode, the same keyboard and the same addressing mode (edit
for a callback context, reply for a command context) — and if that plain
attempt succeeds on its own, the invocation ends delivered via the
fallback. -/
theorem c4_fallback_retry (ok : SendCall → Bool) (isCallback : Bool) (text : String)
    (reply_markup : Option Keyboard) (parse_mode : Option ParseMode)
    (h : ok ⟨isCallback, escape_step parse_mode text, parse_mode, reply_markup⟩ = false) :
    (send_safe_message ok isCallback text reply_markup parse_mode).calls =
      [⟨isCallback, escape_step parse_mode text, parse_mode, reply_markup⟩,
       ⟨isCallback, text, none, reply_markup⟩] ∧
    (ok ⟨isCallback, text, none, reply_markup⟩ = true →
      (send_safe_message ok isCallback text reply_markup parse_mode).outcome =
        Outcome.sentFallback) := by
  constructor
  · by_cases h2 : ok ⟨isCallback, text, none, reply_markup⟩ = true <;>
      cases isCallback <;> simp_all [send_safe_message]
  · intro h2
    simp [send_safe_message, h, h2]

/-- Witness for C4: a transport that rejects any parse mode and accepts
plain sends; the MarkdownV2 attempt fails, the plain retry carries the
original text and succeeds. -/
theorem c4_fallback_retry_witness :
    (send_safe_message (fun c => c.parse_mode.isNone) false "hello *world*" none
      (some ParseMode.markdownV2)).calls =
      [⟨false, escape_step (some ParseMode.markdownV2) "hello *world*",
        some ParseMode.markdownV2, none⟩,
       ⟨false, "hello *world*", none, none⟩] ∧
    (send_safe_message (fun c => c.parse_mode.isNone) false "hello *world*" none
      (some ParseMode.markdownV2)).outcome = Outcome.sentFallback := by
  have h := c4_fallback_retry (fun c => c.parse_mode.isNone) false "hello *world*" none
    (some ParseMode.markdownV2) rfl
  exact ⟨h.1, h.2 rfl⟩

/-- C5: when both the rich-mode attempt and the plain fallback fail on a
callback (editable-message) context, `send_safe_message` stops after those
two attempts and issues only the minimal "an error occurred"
acknowledgment; the model is a total function (every transport error is
caught), so the handler does not raise. -/
theorem c5_ack_on_double_failure (ok : SendCall → Bool) (text : String)
    (reply_markup : Option Keyboard) (parse_mode : Option ParseMode)
    (h1 : ok ⟨true, escape_step parse_mode text, parse_mode, reply_markup⟩ = false)
    (h2 : ok ⟨true, text, none, reply_markup⟩ = false) :
    (send_safe_message ok true text reply_markup parse_mode).outcome = Outcome.acked ∧
    (send_safe_message ok true text reply_markup parse_mode).acks =
      ["Sorry, an error occurred. Please try again."] ∧
    (send_safe_message ok true text reply_markup parse_mode).calls.length = 2 := by
  simp [send_safe_message, h1, h2]

/-- Witness for C5: a transport that fails every send. -/
theorem c5_ack_on_double_failure_witness :
    (send_safe_message (fun _ => false) true "hi" none none).outcome = Outcome.acked ∧
    (send_safe_message (fun _ => false) true "hi" none none).acks =
      ["Sorry, an error occurred. Please try again."] ∧
    (send_safe_message (fun _ => false) true "hi" none none).calls.length = 2 :=
  c5_ack_on_double_failure (fun _ => false) "hi" none none rfl rfl

/-- C6: a select-item callback whose stripped id is not in the catalog
yields exactly the not-found response and leaves the stored session
selection (whatever it was) unchanged. -/
theorem c6_unknown_select_no_mutation (admin_username : String)
    (user_data : Option SelectedCourse) (callback_data : String)
    (h : courseGet (replaceAll callback_data "select_course_" "") = none) :
    select_course admin_username user_data callback_data =
      (user_data, ⟨"Error: Group information not found.", none, none⟩) := by
  simp [select_course, h]

/-- Witness for C6: selecting `"nonexistent_id"` with a prior `course_b`
selection in the session. -/
theorem c6_unknown_select_no_mutation_witness :
    select_course "adminuser"
      (some ⟨"course_b", "Standard Group", 5000,
        ["Premium content access", "Daily updates", "Priority support"]⟩)
      "select_course_nonexistent_id" =
      (some ⟨"course_b", "Standard Group", 5000,
        ["Premium content access", "Daily updates", "Priority support"]⟩,
       ⟨"Error: Group information not found.", none, none⟩) :=
  c6_unknown_select_no_mutation "adminuser"
    (some ⟨"course_b", "Standard Group", 5000,
      ["Premium content access", "Daily updates", "Priority support"]⟩)
    "select_course_nonexistent_id" (by decide)

/-- C7 counterexample: the claim says the process aborts at startup when
either required value — the bot token or the operator contact handle — is
absent; but with a token present and the operator handle absent the
startup check succeeds (the source validates only `TELEGRAM_BOT_TOKEN`). -/
theorem c7_startup_counterexample :
    startup_check (some "token-value") none = Except.ok () := rfl

/-- C7 (amended): if the bot authentication credential is absent (or
empty, Python falsiness) the process aborts at startup with the
descriptive error before the event loop; the operator contact handle is
never validated, so its absence does not abort startup. -/
theorem c7_startup_amended (telegram_bot_token admin_username : Option String) :
    (telegram_bot_token = none ∨ telegram_bot_token = some "" →
      startup_check telegram_bot_token admin_username =
        Except.error "TELEGRAM_BOT_TOKEN is required") ∧
    (telegram_bot_token ≠ none → telegram_bot_token ≠ some "" →
      startup_check telegram_bot_token admin_username = Except.ok ()) := by
  constructor
  · intro h
    simp [startup_check, h]
  · intro h1 h2
    simp [startup_check, h1, h2]

/-- Witness for the amended C7: a missing token aborts, a present token
with a missing operator handle starts. -/
theorem c7_startup_amended_witness :
    startup_check none none = Except.error "TELEGRAM_BOT_TOKEN is required" ∧
    startup_check (some "t") none = Except.ok () :=
  ⟨(c7_startup_amended none none).1 (Or.inl rfl),
   (c7_startup_amended (some "t") none).2 (by decide) (by decide)⟩

/-- C8: the start command's catalog render has exactly one selection
button per catalog item (a one-button row each), in catalog insertion
order, followed by exactly one external demo-link button as the final
row; the back-to-catalog handler produces the identical text and keyboard;
both renders are constants of the process, hence stable across repeated
calls. -/
theorem c8_catalog_render :
    callbackDatas create_course_keyboard =
      COURSE_DATA.map (fun p => "select_course_" ++ p.1) ∧
    urlButtons create_course_keyboard =
      [("📸 Show Demo", "https://t.me/+ukJYiqlkRLYzOTFl")] ∧
    create_course_keyboard.getLast? =
      some [Button.url "📸 Show Demo" "https://t.me/+ukJYiqlkRLYzOTFl"] ∧
    create_course_keyboard.length = COURSE_DATA.length + 1 ∧
    (create_course_keyboard.all fun row => row.length == 1) = true ∧
    start_command = show_courses_menu ∧
    start_command.reply_markup = some create_course_keyboard ∧
    start_command.text =
      "🌟 Welcome to our Premium Bot 📚\n\nSelect a Group below to see its details:" := by
  refine ⟨by decide, by decide, by decide, by decide, by decide, rfl, rfl, rfl⟩

/-- C9: no keyboard the program constructs carries a callback payload
starting with `"contact_admin_"`: the catalog keyboard's callbacks are the
select-item payloads only, and the item-detail keyboard offers only the
external deep-link URL button and the `back_to_groups` button — so the
`contact_admin` handler (registered for the `^contact_admin_` pattern in
`main`) is unreachable through any button the bot itself presents. -/
theorem c9_contact_admin_unreachable (admin_username course_id : String) :
    ((callbackDatas create_course_keyboard).all
      fun d => !("contact_admin_".data.isPrefixOf d.data)) = true ∧
    (((create_course_detail_keyboard admin_username course_id).map fun kb =>
      (callbackDatas kb).all fun d => !("contact_admin_".data.isPrefixOf d.data)).getD true)
      = true := by
  refine ⟨by decide, ?_⟩
  cases h : courseGet course_id with
  | none => simp [create_course_detail_keyboard, h]
  | some course =>
    simp [create_course_detail_keyboard, h, callbackDatas]
    decide

/-- C10: every handler invokes `send_safe_message` with `parse_mode`
left at its `None` default, the escaping step at `parse_mode = None` is
the identity, and then the first-tier and fallback-tier attempts of
`send_safe_message` carry the identical text — rich rendering is never
requested on any code path. -/
theorem c10_no_rich_rendering (admin_username user_info callback_data text : String)
    (user_data : Option SelectedCourse) (ok : SendCall → Bool) (isCallback : Bool)
    (reply_markup : Option Keyboard) :
    start_command.parse_mode = none ∧
    show_courses_menu.parse_mode = none ∧
    (select_course admin_username user_data callback_data).2.parse_mode = none ∧
    (contact_admin user_info callback_data).1.parse_mode = none ∧
    error_handler.parse_mode = none ∧
    escape_step none text = text ∧
    ((send_safe_message ok isCallback text reply_markup none).calls.all
      fun c => c.text == text) = true := by
  refine ⟨rfl, rfl, ?_, ?_, rfl, rfl, ?_⟩
  · cases h : courseGet (replaceAll callback_data "select_course_" "") <;>
      simp [select_course, h]
  · cases h : courseGet (replaceAll callback_data "contact_admin_" "") <;>
      simp [contact_admin, h]
  · by_cases h : ok ⟨isCallback, text, none, reply_markup⟩ = true <;>
      cases isCallback <;> simp_all [send_safe_message, escape_step]

end Bot
